import Mathlib

/-!
Verification of the structured-logging pipeline of claude-code-router.

This file shallowly embeds the parts of the TypeScript source that the
claims concern:

* `src/utils/logging/config/ConfigFileIntegration.ts` (priority-based
  configuration merging),
* `src/utils/logging/streams/index.ts` (`StreamManager`),
* `src/utils/logging/tracking/StreamStateTracker.ts` (`StreamStateTracker`
  and `RequestContextTracker`),
* `src/utils/logging/enhanced/ErrorLogger.ts` (`ErrorLogger`),
* `src/utils/logging/LogManager.ts` (`LogManager`).

JavaScript `Map`s are embedded as association lists that preserve insertion
order (as ES2015 `Map` does); `Set`s of strings as ordered duplicate-free
lists; JavaScript numbers holding timestamps, byte counts and durations as
`Int`, and numbers produced by division (rates, percentages, averages) as
`ℚ`.  `Date.now()` is passed in explicitly as a `now` parameter.  Fallible
operations return `Except String` mirroring the hand-rolled `Result` type.
-/

namespace CCR

/-- `Map.get`: first binding of the key in insertion order. -/
def mapGet {α : Type} (m : List (String × α)) (k : String) : Option α :=
  match m with
  | [] => none
  | (k2, v) :: rest => if k2 = k then some v else mapGet rest k

/-- `Map.set`: replace the value in place if the key is present (keeping its
insertion position, as JS `Map.set` does), otherwise append. -/
def mapSet {α : Type} (m : List (String × α)) (k : String) (v : α) :
    List (String × α) :=
  match m with
  | [] => [(k, v)]
  | (k2, v2) :: rest =>
      if k2 = k then (k, v) :: rest else (k2, v2) :: mapSet rest k v

/-- `Map.delete`: remove the binding of the key, if any. -/
def mapDelete {α : Type} (m : List (String × α)) (k : String) :
    List (String × α) :=
  match m with
  | [] => []
  | (k2, v2) :: rest =>
      if k2 = k then rest else (k2, v2) :: mapDelete rest k

/-- `Map.values()` in insertion order. -/
def mapValues {α : Type} (m : List (String × α)) : List α :=
  m.map Prod.snd

/-- `Set.has`. -/
def setHas (s : List String) (k : String) : Bool :=
  s.contains k

/-- `Set.add`: appends the element unless already present. -/
def setAdd (s : List String) (k : String) : List String :=
  if s.contains k then s else s ++ [k]

/-- `Set.delete`. -/
def setDelete (s : List String) (k : String) : List String :=
  s.filter (fun x => x ≠ k)

/-! ## Configuration data model

`StreamEntry` from `src/utils/logging/types/stream-entry.ts` and the
`LogConfig` shape used throughout the logging core
(`{level, timestamp, serviceName, version, environment, streams}`, as
constructed in `ConfigFileIntegration.mergeConfigs` and consumed by
`StreamManager` and the `LogConfigManager` tests).  Log levels and stream
types are string unions in TypeScript and are embedded as `String`. -/

structure StreamEntry where
  name : String
  type : String
  level : String
  path : Option String := none
  rotation : Bool := false
  autoEnd : Option Bool := none
  stderr : Bool := false
deriving DecidableEq, Repr

structure LogConfig where
  level : String
  timestamp : Bool
  serviceName : String
  version : String
  environment : String
  streams : List StreamEntry
deriving DecidableEq, Repr

/-! ## ConfigFileIntegration (`config/ConfigFileIntegration.ts`)

`ConfigPriority`: environment = 1 (highest precedence per the enum
comments), config-file = 2, preset = 3, default = 4 (lowest). -/

inductive SourceType where
  | environment
  | configFile
  | preset
  | default
deriving DecidableEq, Repr

/-- `ConfigPriority` enum value of each source type. -/
def SourceType.priorityOf : SourceType → Nat
  | .environment => 1
  | .configFile => 2
  | .preset => 3
  | .default => 4

/-- The `type` string of a source as used in merge messages. -/
def SourceType.nameOf : SourceType → String
  | .environment => "environment"
  | .configFile => "config-file"
  | .preset => "preset"
  | .default => "default"

/-- `ConfigSource` from `ConfigFileIntegration.ts` (the `name` field of
preset sources is irrelevant to merging and omitted). -/
structure ConfigSource where
  type : SourceType
  priority : Nat
  config : LogConfig
  timestamp : Int
deriving DecidableEq, Repr

/-- Stable insertion of a source into a list sorted ascending by priority:
the new source goes after every source of smaller-or-equal priority.  Used
to model the stable `sources.sort((a, b) => a.priority - b.priority)` at the
end of `collectConfigSources`. -/
def insertByPriority (s : ConfigSource) :
    List ConfigSource → List ConfigSource
  | [] => [s]
  | t :: rest =>
      if s.priority < t.priority then s :: t :: rest
      else t :: insertByPriority s rest

/-- Stable sort ascending by numeric priority. -/
def sortSources (l : List ConfigSource) : List ConfigSource :=
  l.foldl (fun acc s => insertByPriority s acc) []

/-- `collectConfigSources`: pushes the default source, then the preset,
config-file and environment sources when they are available, then sorts the
list ascending by priority.  The I/O that produces each payload
(`getDefaultConfig`, `getPreset`, `getLoggingConfig`,
`loadEnvironmentConfig`) is abstracted into the optional arguments. -/
def collectConfigSources (defaultConfig : LogConfig)
    (presetConfig : Option LogConfig) (fileConfig : Option LogConfig)
    (envConfig : Option LogConfig) (now : Int) : List ConfigSource :=
  let sources : List ConfigSource :=
    [⟨.default, SourceType.priorityOf .default, defaultConfig, now⟩]
    ++ (match presetConfig with
        | some c => [⟨.preset, SourceType.priorityOf .preset, c, now⟩]
        | none => [])
    ++ (match fileConfig with
        | some c => [⟨.configFile, SourceType.priorityOf .configFile, c, now⟩]
        | none => [])
    ++ (match envConfig with
        | some c => [⟨.environment, SourceType.priorityOf .environment, c,
                      now⟩]
        | none => [])
  sortSources sources

/-- Accumulator of `mergeConfigs`: the config being built plus the
`mergedPaths` and `conflicts` arrays (the `warnings` array is never written
by `mergeConfigs`). -/
structure MergeAcc where
  config : LogConfig
  mergedPaths : List String
  conflicts : List String
deriving DecidableEq, Repr

/-- One iteration of the `for (const source of sources)` loop in
`mergeConfigs`.  Scalar fields: a truthy (non-empty) value that differs from
the current merged value overwrites it and records a merge path — note that
this lets every later-processed source overwrite earlier ones.  Streams: the
first source with a non-empty `streams` array seeds the list; afterwards a
stream whose name is already present is recorded as a conflict while new
names are appended (the `existingStreams` set is computed once before the
inner loop, exactly as in the source). -/
def mergeStep (acc : MergeAcc) (source : ConfigSource) : MergeAcc :=
  let sc := source.config
  let t := SourceType.nameOf source.type
  -- level
  let acc :=
    if sc.level ≠ "" ∧ sc.level ≠ acc.config.level then
      { acc with config := { acc.config with level := sc.level },
                 mergedPaths := acc.mergedPaths ++ ["level from " ++ t] }
    else acc
  -- timestamp (always a boolean in the embedding)
  let acc :=
    if sc.timestamp ≠ acc.config.timestamp then
      { acc with config := { acc.config with timestamp := sc.timestamp },
                 mergedPaths := acc.mergedPaths ++ ["timestamp from " ++ t] }
    else acc
  -- serviceName
  let acc :=
    if sc.serviceName ≠ "" ∧ sc.serviceName ≠ acc.config.serviceName then
      { acc with config := { acc.config with serviceName := sc.serviceName },
                 mergedPaths := acc.mergedPaths ++ ["serviceName from " ++ t] }
    else acc
  -- version
  let acc :=
    if sc.version ≠ "" ∧ sc.version ≠ acc.config.version then
      { acc with config := { acc.config with version := sc.version },
                 mergedPaths := acc.mergedPaths ++ ["version from " ++ t] }
    else acc
  -- environment
  let acc :=
    if sc.environment ≠ "" ∧ sc.environment ≠ acc.config.environment then
      { acc with config := { acc.config with environment := sc.environment },
                 mergedPaths := acc.mergedPaths ++ ["environment from " ++ t] }
    else acc
  -- streams
  if sc.streams ≠ [] then
    if acc.config.streams = [] then
      { acc with config := { acc.config with streams := sc.streams },
                 mergedPaths := acc.mergedPaths ++ ["streams from " ++ t] }
    else
      let existingNames := acc.config.streams.map (·.name)
      sc.streams.foldl
        (fun acc2 stream =>
          if existingNames.contains stream.name then
            { acc2 with conflicts := acc2.conflicts ++
                ["Stream " ++ stream.name ++ " conflict from " ++ t] }
          else
            { acc2 with
                config := { acc2.config with
                  streams := acc2.config.streams ++ [stream] },
                mergedPaths := acc2.mergedPaths ++
                  ["stream " ++ stream.name ++ " from " ++ t] })
        acc
  else acc

/-- `ConfigFileIntegration.mergeConfigs`: starts from the hard-coded base
config (whose `environment` is `process.env.NODE_ENV || "development"`,
passed as `nodeEnv`) and folds the merge step over the sources in the order
produced by `collectConfigSources` (ascending priority number). -/
def mergeConfigs (sources : List ConfigSource) (nodeEnv : String) :
    MergeAcc :=
  let base : LogConfig :=
    { level := "info"
      timestamp := true
      serviceName := "claude-code-router"
      version := "1.0.0"
      environment := nodeEnv
      streams := [] }
  sources.foldl mergeStep { config := base, mergedPaths := [], conflicts := [] }

/-! ## StreamManager (`streams/index.ts`)

`pino.MultiStreamRes` pairs a destination stream handle with a level and an
`autoEnd` flag.  The live destination object is embedded as an abstract
numeric handle, allocated from a counter carried in the manager state (in
the source the handle is the identity of the freshly constructed
`ConsoleStream`/`DestinationStream`/`PinoRollStream` object). -/

structure MultiStreamRes where
  handle : Nat
  level : String
  autoEnd : Bool
deriving DecidableEq, Repr

structure StreamManagerState where
  streams : List (String × MultiStreamRes)
  activeStreams : List String
  config : LogConfig
  nextHandle : Nat
deriving DecidableEq, Repr

/-- `new StreamManager(config)`. -/
def smNew (config : LogConfig) : StreamManagerState :=
  { streams := [], activeStreams := [], config := config, nextHandle := 0 }

/-- `StreamManager.createStream`: file and console entries construct a
destination (construction side effects — directory creation, opening the
sink — are assumed to succeed, matching the claim hypotheses); any other
type is rejected.  The fresh handle is supplied by the caller. -/
def smCreateStream (entry : StreamEntry) (handle : Nat) :
    Except String MultiStreamRes :=
  match entry.type with
  | "file" =>
      .ok { handle := handle, level := entry.level,
            autoEnd := entry.autoEnd.getD true }
  | "console" =>
      .ok { handle := handle, level := entry.level,
            autoEnd := entry.autoEnd.getD true }
  | other => .error ("Unsupported stream type: " ++ other)

/-- `StreamManager.createDefaultStreams`: for each configured entry, create
the stream; on success register it under its name and mark it active; on
failure log and skip it. -/
def smCreateDefaultStreams (st : StreamManagerState) : StreamManagerState :=
  st.config.streams.foldl
    (fun acc entry =>
      match smCreateStream entry acc.nextHandle with
      | .ok res =>
          { acc with
              streams := mapSet acc.streams entry.name res
              activeStreams := setAdd acc.activeStreams entry.name
              nextHandle := acc.nextHandle + 1 }
      | .error _ => acc)
    st

/-- `StreamManager.initialize`: runs `createDefaultStreams` (individual
stream failures are swallowed there) and returns success. -/
def smInitializeStreams (st : StreamManagerState) :
    Except String Unit × StreamManagerState :=
  (.ok (), smCreateDefaultStreams st)

/-- `StreamManager.getMultiStreams`: filters the map values by
`this.activeStreams.has(stream.level || "info")` — the level string is
looked up in the set of stream *names*, exactly as written in the source. -/
def smGetMultiStreams (st : StreamManagerState) : List MultiStreamRes :=
  (mapValues st.streams).filter
    (fun s => setHas st.activeStreams (if s.level = "" then "info" else s.level))

/-- `StreamManager.addStream`: creates the stream and unconditionally
`set`s it under its name (overwriting any existing entry) and adds the name
to the active set. -/
def smAddStream (entry : StreamEntry) (st : StreamManagerState) :
    Except String Unit × StreamManagerState :=
  match smCreateStream entry st.nextHandle with
  | .ok res =>
      (.ok (),
       { st with
           streams := mapSet st.streams entry.name res
           activeStreams := setAdd st.activeStreams entry.name
           nextHandle := st.nextHandle + 1 })
  | .error e => (.error e, st)

/-- `StreamManager.removeStream` (ending the destination when `autoEnd` is
an external side effect on the handle). -/
def smRemoveStream (name : String) (st : StreamManagerState) :
    Except String Unit × StreamManagerState :=
  match mapGet st.streams name with
  | some _ =>
      (.ok (),
       { st with streams := mapDelete st.streams name
                 activeStreams := setDelete st.activeStreams name })
  | none => (.error ("Stream not found: " ++ name), st)

/-- The `{name, message}` part of an `Error` (the optional stack trace is
not modelled). -/
structure ErrorDetail where
  name : String
  message : String
deriving DecidableEq, Repr

/-- `StreamError` from `types/request-context`. -/
structure StreamErrorRec where
  timestamp : Int
  error : ErrorDetail
  context : List (String × String) := []
deriving DecidableEq, Repr

/-- Per-stream `StreamState` as populated by the tracker. -/
structure StreamState where
  id : String
  status : String
  startTime : Int
  contentType : String
  expectedSize : Option Int
  bytesReceived : Int
  chunksReceived : Int
  endTime : Option Int := none
  duration : Option Int := none
  error : Option StreamErrorRec := none
  pauseTime : Option Int := none
  totalPauseDuration : Option Int := none
deriving DecidableEq, Repr

/-- Per-stream `StreamProgress`. -/
structure StreamProgress where
  streamId : String
  startTime : Int
  lastUpdateTime : Int
  bytesTransferred : Int
  chunksTransferred : Int
  transferRate : ℚ
  estimatedTimeRemaining : Option ℚ
  percentage : ℚ
deriving DecidableEq, Repr

structure StreamTrackerState where
  activeStreams : List (String × StreamState)
  streamProgress : List (String × StreamProgress)
  streamErrors : List (String × List StreamErrorRec)
  metrics : List (String × List (String × ℚ))
deriving DecidableEq, Repr

/-- Fresh `StreamStateTracker`. -/
def sstNew : StreamTrackerState :=
  { activeStreams := [], streamProgress := [], streamErrors := [],
    metrics := [] }

/-- `recordMetric`: nested map update. -/
def recordMetric (metrics : List (String × List (String × ℚ)))
    (sid name : String) (value : ℚ) : List (String × List (String × ℚ)) :=
  mapSet metrics sid (mapSet ((mapGet metrics sid).getD []) name value)

/-- `calculateEstimatedTime(bytesTransferred, totalBytes, startTime)` with
`Date.now()` passed as `now`: `undefined` when the total is unknown,
non-positive (JS truthiness of `0`) or nothing was transferred; `0` once
nothing remains or no time has elapsed; otherwise remaining bytes divided by
the cumulative average rate since `startTime`. -/
def sstCalculateEstimatedTime (bytesTransferred : Int)
    (totalBytes : Option Int) (startTime now : Int) : Option ℚ :=
  match totalBytes with
  | none => none
  | some total =>
      if total ≤ 0 ∨ bytesTransferred ≤ 0 then none
      else
        let elapsed := now - startTime
        let remainingBytes := total - bytesTransferred
        if elapsed ≤ 0 ∨ remainingBytes ≤ 0 then some 0
        else
          let transferRate : ℚ :=
            (bytesTransferred : ℚ) / ((elapsed : ℚ) / 1000)
          if transferRate > 0 then some ((remainingBytes : ℚ) / transferRate)
          else none

/-- `StreamStateTracker.startStream`. -/
def sstStartStream (streamId contentType : String) (expectedSize : Option Int)
    (now : Int) (tr : StreamTrackerState) :
    Except String Unit × StreamTrackerState :=
  let state : StreamState :=
    { id := streamId, status := "started", startTime := now,
      contentType := contentType, expectedSize := expectedSize,
      bytesReceived := 0, chunksReceived := 0 }
  let progress : StreamProgress :=
    { streamId := streamId, startTime := now, lastUpdateTime := now,
      bytesTransferred := 0, chunksTransferred := 0, transferRate := 0,
      estimatedTimeRemaining :=
        match expectedSize with
        | some sz =>
            if sz ≠ 0 then sstCalculateEstimatedTime 0 (some sz) now now
            else none
        | none => none,
      percentage := 0 }
  (.ok (),
   { tr with
       activeStreams := mapSet tr.activeStreams streamId state
       streamProgress := mapSet tr.streamProgress streamId progress
       streamErrors := mapSet tr.streamErrors streamId [] })

/-- `StreamStateTracker.updateStreamProgress`: note that `timeElapsed` is
`now - progress.startTime` — the time since the stream *started* — while
`bytesDelta` is the byte delta since the previous update. -/
def sstUpdateStreamProgress (streamId : String) (bytesReceived
    chunksReceived : Int) (now : Int) (tr : StreamTrackerState) :
    Except String Unit × StreamTrackerState :=
  match mapGet tr.activeStreams streamId, mapGet tr.streamProgress streamId
    with
  | some state, some progress =>
      let timeElapsed := now - progress.startTime
      let bytesDelta := bytesReceived - progress.bytesTransferred
      let state2 :=
        { state with bytesReceived := bytesReceived,
                     chunksReceived := chunksReceived, status := "progress" }
      let rate : ℚ :=
        if timeElapsed > 0 then (bytesDelta : ℚ) / ((timeElapsed : ℚ) / 1000)
        else 0
      let pct : ℚ :=
        match state.expectedSize with
        | some sz =>
            if sz ≠ 0 then ((bytesReceived : ℚ) / (sz : ℚ)) * 100 else 0
        | none => 0
      let progress2 :=
        { progress with
            bytesTransferred := bytesReceived
            chunksTransferred := chunksReceived
            lastUpdateTime := now
            transferRate := rate
            percentage := pct
            estimatedTimeRemaining :=
              sstCalculateEstimatedTime bytesReceived state.expectedSize
                progress.startTime now }
      let metrics2 :=
        recordMetric
          (recordMetric
            (recordMetric tr.metrics streamId "bytes_received"
              (bytesReceived : ℚ))
            streamId "chunks_received" (chunksReceived : ℚ))
          streamId "transfer_rate" rate
      (.ok (),
       { tr with
           activeStreams := mapSet tr.activeStreams streamId state2
           streamProgress := mapSet tr.streamProgress streamId progress2
           metrics := metrics2 })
  | _, _ => (.error ("Stream not found: " ++ streamId), tr)

/-- `StreamStateTracker.completeStream`. -/
def sstCompleteStream (streamId : String) (finalSize : Option Int)
    (now : Int) (tr : StreamTrackerState) :
    Except String Unit × StreamTrackerState :=
  match mapGet tr.activeStreams streamId, mapGet tr.streamProgress streamId
    with
  | some state, some progress =>
      let duration := now - progress.startTime
      let state2 :=
        { state with status := "completed", endTime := some now,
                     duration := some duration }
      -- `if (finalSize)`: JS truthiness, a final size of 0 is ignored
      let state3 :=
        match finalSize with
        | some sz =>
            if sz ≠ 0 then
              { state2 with bytesReceived := sz, expectedSize := some sz }
            else state2
        | none => state2
      let progress2 :=
        { progress with lastUpdateTime := now,
                        bytesTransferred := state3.bytesReceived,
                        percentage := 100,
                        estimatedTimeRemaining := some 0 }
      let metrics2 :=
        recordMetric
          (recordMetric
            (recordMetric tr.metrics streamId "duration" (duration : ℚ))
            streamId "final_size" (state3.bytesReceived : ℚ))
          streamId "total_chunks" (state3.chunksReceived : ℚ)
      (.ok (),
       { tr with
           activeStreams := mapSet tr.activeStreams streamId state3
           streamProgress := mapSet tr.streamProgress streamId progress2
           metrics := metrics2 })
  | _, _ => (.error ("Stream not found: " ++ streamId), tr)

/-! ## RequestContextTracker (`tracking/StreamStateTracker.ts`, second
class in the file) -/

/-- `RequestStatus` string-enum values used by the tracker
(`created | active | completed | failed`). -/
inductive RequestStatus where
  | created
  | active
  | completed
  | failed
deriving DecidableEq, Repr

structure TokenUsage where
  promptTokens : Int
  completionTokens : Int
  totalTokens : Int
deriving DecidableEq, Repr

/-- The metadata records the tracker actually writes
(`{responseSize}` in `trackRequestEnd`, `{streamMessage}` in
`trackStreamState`, `{}` at creation). -/
structure MetaInfo where
  responseSize : Option Int := none
  streamMessage : Option String := none
deriving DecidableEq, Repr

structure RequestContext where
  requestId : String
  sessionId : String
  userId : Option String
  traceId : String
  status : RequestStatus
  startTime : Int
  endTime : Option Int
  duration : Option Int
  method : String
  url : String
  headers : List (String × String)
  statusCode : Option Int
  error : Option ErrorDetail
  streamState : String
  tokenUsage : TokenUsage
  metadata : MetaInfo
deriving DecidableEq, Repr

structure RequestStatistics where
  totalRequests : Int
  activeRequests : Int
  completedRequests : Int
  failedRequests : Int
  averageResponseTime : ℚ
  lastUpdated : Int
deriving DecidableEq, Repr

structure RequestTrackerState where
  requestContexts : List (String × RequestContext)
  statistics : RequestStatistics
deriving DecidableEq, Repr

/-- Fresh `RequestContextTracker` (the statistics field initializer reads
`Date.now()`). -/
def rctNew (now : Int) : RequestTrackerState :=
  { requestContexts := []
    statistics :=
      { totalRequests := 0, activeRequests := 0, completedRequests := 0,
        failedRequests := 0, averageResponseTime := 0, lastUpdated := now } }

/-- A `Partial<RequestContext>` as passed to `updateContext`: `none` means
the property is absent from the update object.  `statusCode` is
`Option (Option Int)` because `trackRequestError` spreads an explicitly
`undefined` `statusCode`, which does overwrite the existing value. -/
structure ContextUpdate where
  status : Option RequestStatus := none
  method : Option String := none
  url : Option String := none
  headers : Option (List (String × String)) := none
  endTime : Option Int := none
  duration : Option Int := none
  statusCode : Option (Option Int) := none
  error : Option ErrorDetail := none
  metadata : Option MetaInfo := none
  streamState : Option String := none
  tokenUsage : Option TokenUsage := none
deriving DecidableEq, Repr

/-- `{ ...context, ...updates }`. -/
def applyUpdate (c : RequestContext) (u : ContextUpdate) : RequestContext :=
  { c with
      status := u.status.getD c.status
      method := u.method.getD c.method
      url := u.url.getD c.url
      headers := u.headers.getD c.headers
      endTime := match u.endTime with | some t => some t | none => c.endTime
      duration := match u.duration with | some d => some d | none => c.duration
      statusCode := match u.statusCode with | some sc => sc | none => c.statusCode
      error := match u.error with | some e => some e | none => c.error
      metadata := u.metadata.getD c.metadata
      streamState := u.streamState.getD c.streamState
      tokenUsage := u.tokenUsage.getD c.tokenUsage }

/-- The optional fields accepted by `createContext`. -/
structure CreateOpts where
  sessionId : Option String := none
  userId : Option String := none
  traceId : Option String := none
  method : Option String := none
  url : Option String := none
  headers : Option (List (String × String)) := none
  statusCode : Option Int := none
  error : Option ErrorDetail := none
  streamState : Option String := none
  tokenUsage : Option TokenUsage := none
  metadata : Option MetaInfo := none
deriving DecidableEq, Repr

/-- `generateSessionId` reads `Date.now()` plus a random suffix; the
nondeterministic suffix is not modelled. -/
def generateSessionId (now : Int) : String :=
  "session_" ++ toString now

def generateTraceId (now : Int) : String :=
  "trace_" ++ toString now

/-- `RequestContextTracker.createContext`: builds the context with status
`CREATED`, stores it, and bumps `totalRequests`, `activeRequests` and
`lastUpdated`. -/
def rctCreateContext (requestId : String) (opts : CreateOpts) (now : Int)
    (tr : RequestTrackerState) : RequestContext × RequestTrackerState :=
  let ctx : RequestContext :=
    { requestId := requestId
      sessionId := opts.sessionId.getD (generateSessionId now)
      userId := opts.userId
      traceId := opts.traceId.getD (generateTraceId now)
      status := .created
      startTime := now
      endTime := none
      duration := none
      method := opts.method.getD "UNKNOWN"
      url := opts.url.getD ""
      headers := opts.headers.getD []
      statusCode := opts.statusCode
      error := opts.error
      streamState := opts.streamState.getD "idle"
      tokenUsage := opts.tokenUsage.getD ⟨0, 0, 0⟩
      metadata := opts.metadata.getD {} }
  (ctx,
   { tr with
       requestContexts := mapSet tr.requestContexts requestId ctx
       statistics :=
         { tr.statistics with
             totalRequests := tr.statistics.totalRequests + 1
             activeRequests := tr.statistics.activeRequests + 1
             lastUpdated := now } })

/-- `RequestContextTracker.getContext`. -/
def rctGetContext (requestId : String) (tr : RequestTrackerState) :
    Option RequestContext :=
  mapGet tr.requestContexts requestId

/-- `RequestContextTracker.updateContext`: fails without touching anything
when the context does not exist. -/
def rctUpdateContext (requestId : String) (u : ContextUpdate)
    (tr : RequestTrackerState) : Except String Unit × RequestTrackerState :=
  match mapGet tr.requestContexts requestId with
  | none => (.error ("Request context not found: " ++ requestId), tr)
  | some c =>
      (.ok (),
       { tr with requestContexts :=
           mapSet tr.requestContexts requestId (applyUpdate c u) })

/-- `RequestContextTracker.trackRequestStart`: creates a context (status
`CREATED`) when none exists, otherwise marks the existing one `ACTIVE` and
updates method/url/headers in place. -/
def rctTrackRequestStart (requestId method url : String)
    (headers : Option (List (String × String))) (now : Int)
    (tr : RequestTrackerState) : RequestTrackerState :=
  match rctGetContext requestId tr with
  | none =>
      (rctCreateContext requestId
        { method := some method, url := some url, headers := headers } now
        tr).2
  | some c =>
      (rctUpdateContext requestId
        { status := some .active, method := some method, url := some url,
          headers := some (headers.getD c.headers) } tr).2

/-- `updateAverageResponseTime`, called after the completed/failed counters
have been incremented: `avg := (avg*(n-1) + d) / n` with
`n = completed + failed`. -/
def updateAverageResponseTime (stats : RequestStatistics) (d : Int) :
    RequestStatistics :=
  let totalCompleted := stats.completedRequests + stats.failedRequests
  if totalCompleted = 0 then { stats with averageResponseTime := (d : ℚ) }
  else
    { stats with averageResponseTime :=
        (stats.averageResponseTime * ((totalCompleted : ℚ) - 1) + (d : ℚ)) /
          (totalCompleted : ℚ) }

/-- `RequestContextTracker.trackRequestEnd`: when the context exists,
stamps end data and shifts the statistics; a failed lookup leaves the whole
tracker untouched. -/
def rctTrackRequestEnd (requestId : String) (statusCode duration : Int)
    (responseSize : Option Int) (now : Int) (tr : RequestTrackerState) :
    RequestTrackerState :=
  let upd : ContextUpdate :=
    { status := some (if statusCode ≥ 400 then .failed else .completed)
      endTime := some now
      duration := some duration
      statusCode := some (some statusCode)
      metadata := some { responseSize := responseSize, streamMessage := none } }
  match rctUpdateContext requestId upd tr with
  | (.ok _, tr2) =>
      let s0 := tr2.statistics
      let s1 :=
        if statusCode ≥ 400 then
          { s0 with activeRequests := s0.activeRequests - 1,
                    failedRequests := s0.failedRequests + 1 }
        else
          { s0 with activeRequests := s0.activeRequests - 1,
                    completedRequests := s0.completedRequests + 1 }
      { tr2 with statistics := updateAverageResponseTime s1 duration }
  | (.error _, tr2) => tr2

/-- `RequestContextTracker.trackRequestError`: duration falls back to `0`
when no context exists; the statistics shift only when the in-place update
succeeded (no average update here, matching the source). -/
def rctTrackRequestError (requestId : String) (error : ErrorDetail)
    (statusCode : Option Int) (now : Int) (tr : RequestTrackerState) :
    RequestTrackerState :=
  let duration :=
    match rctGetContext requestId tr with
    | some c => now - c.startTime
    | none => 0
  let upd : ContextUpdate :=
    { status := some .failed
      endTime := some now
      duration := some duration
      error := some error
      statusCode := some statusCode }
  match rctUpdateContext requestId upd tr with
  | (.ok _, tr2) =>
      { tr2 with statistics :=
          { tr2.statistics with
              activeRequests := tr2.statistics.activeRequests - 1
              failedRequests := tr2.statistics.failedRequests + 1 } }
  | (.error _, tr2) => tr2

/-! ## ErrorLogger (`enhanced/ErrorLogger.ts`) -/

/-- An entry of the error history. -/
structure HistEntry where
  timestamp : Int
  errorName : String
  errorMessage : String
  context : List (String × String) := []
deriving DecidableEq, Repr

structure ErrorLoggerState where
  errorCounts : List (String × Nat)
  errorHistory : List HistEntry
deriving DecidableEq, Repr

/-- Fresh `ErrorLogger`. -/
def elNew : ErrorLoggerState :=
  { errorCounts := [], errorHistory := [] }

def maxHistorySize : Nat := 1000

/-- `updateErrorCount`: `counts.set(name, (counts.get(name) || 0) + 1)`. -/
def updateErrorCount (m : List (String × Nat)) (name : String) :
    List (String × Nat) :=
  mapSet m name ((mapGet m name).getD 0 + 1)

/-- `addToErrorHistory`: push, then `history.slice(-maxHistorySize)` once
over the cap (drop the oldest entries). -/
def addToErrorHistory (h : List HistEntry) (e : HistEntry) :
    List HistEntry :=
  let h2 := h ++ [e]
  if h2.length > maxHistorySize then h2.drop (h2.length - maxHistorySize)
  else h2

/-- The data of one `logError(error, context)` call: `Date.now()`, the
error name/message, and the caller context. -/
structure ErrEvent where
  now : Int
  name : String
  message : String
  context : List (String × String) := []
deriving DecidableEq, Repr

def ErrEvent.toHistEntry (e : ErrEvent) : HistEntry :=
  { timestamp := e.now, errorName := e.name, errorMessage := e.message,
    context := e.context }

/-- `ErrorLogger.logError`: bumps the per-name count and appends to the
capped history (the structured log write and the special-case network /
permission / memory / timeout side channels are external writes that do not
touch this state). -/
def elLogError (e : ErrEvent) (st : ErrorLoggerState) : ErrorLoggerState :=
  { st with
      errorCounts := updateErrorCount st.errorCounts e.name
      errorHistory := addToErrorHistory st.errorHistory e.toHistEntry }

/-- A sequence of `logError` calls, oldest first. -/
def elApply (events : List ErrEvent) (st : ErrorLoggerState) :
    ErrorLoggerState :=
  events.foldl (fun s e => elLogError e s) st

/-- Stable descending insertion used to model the stable
`sort((a, b) => b.count - a.count)`: the new pair goes after every pair
with an equal or larger count. -/
def insertByCountDesc (p : String × Nat) :
    List (String × Nat) → List (String × Nat)
  | [] => [p]
  | q :: rest =>
      if p.2 > q.2 then p :: q :: rest else q :: insertByCountDesc p rest

def sortByCountDesc (l : List (String × Nat)) : List (String × Nat) :=
  l.foldl (fun acc p => insertByCountDesc p acc) []

/-- The record returned by `getErrorStatistics`. -/
structure ErrorStatistics where
  totalErrors : Nat
  errorCounts : List (String × Nat)
  recentErrors : List (Int × String × String)
  topErrors : List (String × Nat)
deriving DecidableEq, Repr

/-- `ErrorLogger.getErrorStatistics`: `totalErrors` is the *length of the
capped history*; `recentErrors` is `history.slice(-50)`; `topErrors` the
ten largest counts. -/
def getErrorStatistics (st : ErrorLoggerState) : ErrorStatistics :=
  { totalErrors := st.errorHistory.length
    errorCounts := st.errorCounts
    recentErrors :=
      (st.errorHistory.drop (st.errorHistory.length - 50)).map
        (fun e => (e.timestamp, e.errorName, e.errorMessage))
    topErrors := (sortByCountDesc st.errorCounts).take 10 }

/-! ## LogConfigManager (`src/unnamed/part_005`)

The repository class `LogConfigManager` owns a `config` object resolved at
construction time (from static defaults, environment presets, a config
file and environment variables — external I/O; the embedding takes the
resolved configuration as a parameter).  Notably the class has **no**
`initialize` method, no `getConfig`/`getDefaultConfig`, and no
Result-returning `updateConfig`: its update operation is
`updateConfiguration(updates)`, which deep-merges the updates into
`this.config` *first* and only then validates, throwing after the
mutation. -/

structure LogConfigManagerState where
  config : LogConfig
deriving DecidableEq, Repr

/-- The pino root logger as configured by `LogManager`: level, base
bindings, timestamp flag, and the multistream destination list. -/
structure LoggerHandle where
  level : String
  service : String
  version : String
  environment : String
  timestampEnabled : Bool
  multiStreams : List MultiStreamRes
deriving DecidableEq, Repr

structure LogManagerState where
  configManager : LogConfigManagerState
  streamManager : StreamManagerState
  requestTracker : Option RequestTrackerState
  streamTracker : Option StreamTrackerState
  errorLogger : Option ErrorLoggerState
  logger : Option LoggerHandle
  initialized : Bool
deriving DecidableEq, Repr

/-- `new LogManager(config)`: builds the config manager (whose resolved
configuration the embedding takes as the parameter) and hands that
configuration to a fresh stream manager. -/
def lmNew (config : LogConfig) : LogManagerState :=
  { configManager := { config := config }
    streamManager := smNew config
    requestTracker := none
    streamTracker := none
    errorLogger := none
    logger := none
    initialized := false }

/-- `LogManager.initialize` against the `LogConfigManager` of
`src/unnamed/part_005`: an already-initialized manager returns success
immediately from the `if (this.initialized)` guard; otherwise the very
first step of the body, `await this.configManager.initialize()`, throws a
TypeError because the class has no `initialize` method.  The throw is
caught by the surrounding try/catch and returned as an error before
anything is mutated, so initialization never succeeds and the rest of the
body (stream setup, logger construction, tracker construction) is
unreachable. -/
def lmInitializeManager (st : LogManagerState) :
    Except String Unit × LogManagerState :=
  if st.initialized then (.ok (), st)
  else (.error "this.configManager.initialize is not a function", st)

/-- A typical default configuration: one console stream named `console`. -/
def consoleOnlyConfig : LogConfig :=
  { level := "info", timestamp := true, serviceName := "claude-code-router",
    version := "1.0.0", environment := "development",
    streams := [{ name := "console", type := "console", level := "info" }] }

/-- The payload of a `default` configuration source defining
`level = "info"`. -/
def defaultSourcePayload : LogConfig :=
  { level := "info", timestamp := true, serviceName := "claude-code-router",
    version := "1.0.0", environment := "development",
    streams := [{ name := "console", type := "console", level := "info" }] }

/-- The payload of an `environment` configuration source defining
`level = "error"`. -/
def environmentSourcePayload : LogConfig :=
  { level := "error", timestamp := true, serviceName := "claude-code-router",
    version := "1.0.0", environment := "development", streams := [] }

/-- The merge result for the two sources of claim C1. -/
def c1Merged : MergeAcc :=
  mergeConfigs
    (collectConfigSources defaultSourcePayload none none
      (some environmentSourcePayload) 0)
    "development"

/-- Tracker state after `startStream("s1", "text/plain", 4000)` at time 0. -/
def c3AfterStart : StreamTrackerState :=
  (sstStartStream "s1" "text/plain" (some 4000) 0 sstNew).2

/-- The stored `StreamState` right after that `startStream`. -/
def c3StateAfterStart : StreamState :=
  { id := "s1", status := "started", startTime := 0,
    contentType := "text/plain", expectedSize := some 4000,
    bytesReceived := 0, chunksReceived := 0 }

/-- The stored `StreamProgress` right after that `startStream`. -/
def c3ProgressAfterStart : StreamProgress :=
  { streamId := "s1", startTime := 0, lastUpdateTime := 0,
    bytesTransferred := 0, chunksTransferred := 0, transferRate := 0,
    estimatedTimeRemaining := none, percentage := 0 }

/-- After the first update: 1000 bytes, 1 chunk, at time 1000 ms. -/
def c3AfterFirstUpdate : StreamTrackerState :=
  (sstUpdateStreamProgress "s1" 1000 1 1000 c3AfterStart).2

/-- After the second update: 2000 bytes, 2 chunks, at time 2000 ms. -/
def c3AfterSecondUpdate : StreamTrackerState :=
  (sstUpdateStreamProgress "s1" 2000 2 2000 c3AfterFirstUpdate).2

/-- A stream-manager state owning one registered stream named `x`. -/
def c6Registry : StreamManagerState :=
  { streams := [("x", { handle := 0, level := "info", autoEnd := true })],
    activeStreams := ["x"], config := consoleOnlyConfig, nextHandle := 1 }

/-- A descriptor whose name collides with the registered stream `x`. -/
def c6DuplicateEntry : StreamEntry :=
  { name := "x", type := "console", level := "warn" }

/-- Tracker state after `trackRequestStart("r1", "GET", "/a")` on a fresh
tracker. -/
def c7AfterStart : RequestTrackerState :=
  rctTrackRequestStart "r1" "GET" "/a" none 5 (rctNew 0)

/-- The context stored for `r1` by that first `trackRequestStart`. -/
def c7StoredContext : RequestContext :=
  { requestId := "r1", sessionId := "session_5", userId := none,
    traceId := "trace_5", status := .created, startTime := 5,
    endTime := none, duration := none, method := "GET", url := "/a",
    headers := [], statusCode := none, error := none, streamState := "idle",
    tokenUsage := ⟨0, 0, 0⟩, metadata := {} }

/-- A fresh `LogManager` over the console-only configuration. -/
def freshManager : LogManagerState :=
  lmNew consoleOnlyConfig

/-- A generic error event used to exercise the error aggregator. -/
def sampleErrEvent : ErrEvent :=
  { now := 0, name := "TypeError", message := "boom" }

/-- `countsTotal`: the sum of the values of the `name → count` map. -/
def countsTotal (m : List (String × Nat)) : Nat :=
  (m.map Prod.snd).sum

/-! ## Helper lemmas -/

@[simp] theorem mapGet_mapSet {α : Type} (m : List (String × α)) (k : String)
    (v : α) : mapGet (mapSet m k v) k = some v := by
  induction m with
  | nil => simp [mapSet, mapGet]
  | cons hd tl ih =>
      obtain ⟨k2, v2⟩ := hd
      by_cases h : k2 = k
      · simp [mapSet, mapGet, h]
      · simp [mapSet, mapGet, h, ih]

theorem addToErrorHistory_eq_drop (h : List HistEntry) (e : HistEntry) :
    addToErrorHistory h e
      = (h ++ [e]).drop (h.length + 1 - maxHistorySize) := by
  unfold addToErrorHistory
  by_cases hl : (h ++ [e]).length > maxHistorySize
  · simp only [hl, if_true]
    simp [List.length_append]
  · simp only [hl, if_false]
    have : h.length + 1 - maxHistorySize = 0 := by
      simp [List.length_append] at hl
      omega
    simp [this]

theorem elApply_append (es : List ErrEvent) (e : ErrEvent)
    (st : ErrorLoggerState) :
    elApply (es ++ [e]) st = elLogError e (elApply es st) := by
  simp [elApply, List.foldl_append]

theorem errorHistory_elApply (events : List ErrEvent) :
    (elApply events elNew).errorHistory
      = (events.map ErrEvent.toHistEntry).drop
          (events.length - maxHistorySize) := by
  have hM : maxHistorySize = 1000 := rfl
  induction events using List.reverseRecOn with
  | nil => simp [elApply, elNew]
  | append_singleton es e ih =>
      rw [elApply_append]
      have hlen : (es.map ErrEvent.toHistEntry).length = es.length :=
        List.length_map _ _
      show addToErrorHistory (elApply es elNew).errorHistory e.toHistEntry
        = ((es ++ [e]).map ErrEvent.toHistEntry).drop
            ((es ++ [e]).length - maxHistorySize)
      rw [ih, addToErrorHistory_eq_drop]
      rw [List.map_append, List.map_singleton, List.length_append,
        List.length_singleton]
      have hdroplen :
          ((es.map ErrEvent.toHistEntry).drop
            (es.length - maxHistorySize)).length
          = es.length - (es.length - maxHistorySize) := by
        rw [List.length_drop, hlen]
      by_cases hn : es.length ≤ maxHistorySize
      · have h0 : es.length - maxHistorySize = 0 := by omega
        rw [h0, List.drop_zero, hlen]
      · have hgt : maxHistorySize < es.length := by omega
        have h1 : ((es.map ErrEvent.toHistEntry).drop
            (es.length - maxHistorySize)).length + 1 - maxHistorySize
            = 1 := by
          rw [hdroplen]; omega
        rw [h1]
        have hle : (1 : ℕ) ≤
            ((es.map ErrEvent.toHistEntry).drop
              (es.length - maxHistorySize)).length := by
          rw [hdroplen]; omega
        rw [List.drop_append_of_le_length hle, List.drop_drop]
        have h2 : es.length + 1 - maxHistorySize ≤
            (es.map ErrEvent.toHistEntry).length := by rw [hlen]; omega
        rw [List.drop_append_of_le_length h2]
        have h3 : es.length - maxHistorySize + 1
            = es.length + 1 - maxHistorySize := by omega
        rw [h3]

theorem countsTotal_updateErrorCount (m : List (String × Nat))
    (name : String) :
    countsTotal (updateErrorCount m name) = countsTotal m + 1 := by
  induction m with
  | nil => simp [updateErrorCount, mapGet, mapSet, countsTotal]
  | cons hd tl ih =>
      obtain ⟨k, v⟩ := hd
      by_cases h : k = name
      · subst h
        simp [updateErrorCount, mapGet, mapSet, countsTotal]
        omega
      · simp only [updateErrorCount, mapGet, mapSet, h, if_false,
          countsTotal, List.map_cons, List.sum_cons] at ih ⊢
        omega

theorem countsTotal_elApply (events : List ErrEvent)
    (st : ErrorLoggerState) :
    countsTotal (elApply events st).errorCounts
      = countsTotal st.errorCounts + events.length := by
  induction events generalizing st with
  | nil => simp [elApply]
  | cons e es ih =>
      have hstep : elApply (e :: es) st = elApply es (elLogError e st) := rfl
      rw [hstep, ih]
      show countsTotal (updateErrorCount st.errorCounts e.name) + es.length
        = countsTotal st.errorCounts + (es.length + 1)
      rw [countsTotal_updateErrorCount]
      omega

/-! ## Claim theorems -/

/-- C1: the claim states that for sources `environment` and `default` both
defining `level`, the merged configuration has the environment value.  The
code instead iterates the sources sorted ascending by priority number and
lets every later source overwrite scalar fields, so the `default` source
(processed last) wins: with environment `level = "error"` and default
`level = "info"`, the resolved level is `"info"`, not `"error"`. -/
theorem c1_default_overwrites_environment_level :
    environmentSourcePayload.level = "error"
    ∧ defaultSourcePayload.level = "info"
    ∧ c1Merged.config.level = defaultSourcePayload.level
    ∧ c1Merged.config.level ≠ environmentSourcePayload.level := by
  decide

/-- C2: the claim states that after a successful `initialize` the sequence
returned by `getMultiStreams` has one entry per declared stream.  On a
configuration with a single console stream named `console` at level
`info`, initialization succeeds and registers the stream, yet
`getMultiStreams` returns the empty list, because the filter looks up the
stream *level* in the set of stream *names*
(`this.activeStreams.has(stream.level || "info")`). -/
theorem c2_getMultiStreams_drops_registered_stream :
    (smInitializeStreams (smNew consoleOnlyConfig)).1 = .ok ()
    ∧ (smInitializeStreams (smNew consoleOnlyConfig)).2.streams.length = 1
    ∧ (smInitializeStreams (smNew consoleOnlyConfig)).2.activeStreams
        = ["console"]
    ∧ smGetMultiStreams (smInitializeStreams (smNew consoleOnlyConfig)).2
        = [] :=
  ⟨rfl, rfl, rfl, rfl⟩

/-- C3 counterexample: after `startStream` at t=0 and a first update
(1000 bytes at t=1000), a second update to 2000 bytes at t=2000 stores
`transferRate = 500`, while the claimed instantaneous rate — the byte delta
since the previous update over the elapsed seconds since that update —
is `(2000-1000)/((2000-1000)/1000) = 1000`. -/
theorem c3_transfer_rate_counterexample :
    (∃ p, mapGet c3AfterSecondUpdate.streamProgress "s1" = some p
       ∧ p.transferRate = 500)
    ∧ ((2000 - 1000 : ℚ) / ((2000 - 1000 : ℚ) / 1000)) = 1000
    ∧ (500 : ℚ) ≠ 1000 := by
  refine ⟨⟨_, rfl, ?_⟩, by norm_num, by norm_num⟩
  show (((2000 - 1000 : Int) : ℚ) / (((2000 - 0 : Int) : ℚ) / 1000)) = 500
  norm_num

/-- C3 amended: `updateStreamProgress` stores
`transferRate = Δbytes / Δt` where `Δbytes` is the byte delta since the
*previous* update but `Δt` is the elapsed time in seconds since the stream
*started* (`progress.startTime`), not since the previous update; the two
agree only on the first update. -/
theorem c3_transfer_rate_amended (tr : StreamTrackerState) (sid : String)
    (bytes chunks now : Int) (st : StreamState) (pr : StreamProgress)
    (hs : mapGet tr.activeStreams sid = some st)
    (hp : mapGet tr.streamProgress sid = some pr)
    (ht : now - pr.startTime > 0) :
    (mapGet (sstUpdateStreamProgress sid bytes chunks now tr).2.streamProgress
        sid).map (fun p => p.transferRate)
      = some (((bytes - pr.bytesTransferred : Int) : ℚ)
          / (((now - pr.startTime : Int) : ℚ) / 1000)) := by
  simp [sstUpdateStreamProgress, hs, hp, ht, mapGet_mapSet]

/-- C3 witness: the amended statement evaluated on the first update of the
concrete stream `s1`. -/
theorem c3_transfer_rate_witness :
    (mapGet (sstUpdateStreamProgress "s1" 1000 1 1000
        c3AfterStart).2.streamProgress "s1").map (fun p => p.transferRate)
      = some (((1000 - c3ProgressAfterStart.bytesTransferred : Int) : ℚ)
          / (((1000 - c3ProgressAfterStart.startTime : Int) : ℚ) / 1000)) :=
  c3_transfer_rate_amended c3AfterStart "s1" 1000 1 1000
    c3StateAfterStart c3ProgressAfterStart (by decide) (by decide) (by decide)

/-- C4: the claim assumes a successful first `initialize()` call after
which a second call is an idempotent no-op success.  Against the
`LogConfigManager` of `src/unnamed/part_005` — which has no `initialize`
method — the first call on a fresh manager always throws a TypeError that
is caught and returned as an error, with the manager unchanged and still
uninitialized: a successful first call never exists, the pipeline can
never become initialized, and the idempotence guard at the top of
`initialize()` (which would indeed return success without side effects)
is unreachable. -/
theorem c4_initialize_never_succeeds :
    lmInitializeManager freshManager
      = (.error "this.configManager.initialize is not a function",
         freshManager)
    ∧ freshManager.initialized = false
    ∧ (lmInitializeManager freshManager).2.initialized = false :=
  ⟨rfl, rfl, rfl⟩

/-- C6 counterexample: the claim states that `addStream` with an
already-registered name returns an error and leaves the registry unchanged.
On a registry owning stream `x`, adding another descriptor named `x`
returns success and overwrites the registry entry. -/
theorem c6_addStream_duplicate_counterexample :
    (smAddStream c6DuplicateEntry c6Registry).1 = .ok ()
    ∧ (smAddStream c6DuplicateEntry c6Registry).2.streams ≠ c6Registry.streams
    ∧ mapGet (smAddStream c6DuplicateEntry c6Registry).2.streams "x"
        = some { handle := 1, level := "warn", autoEnd := true } :=
  ⟨rfl, by decide, rfl⟩

/-- C6 amended: `addStream` performs no duplicate-name check — for any
descriptor of a supported kind it returns success and `set`s the new stream
under its name, replacing any existing registry entry (without ending the
replaced stream); names stay unique only because the registry is a map
keyed by name. -/
theorem c6_addStream_overwrites (entry : StreamEntry)
    (st : StreamManagerState)
    (h : entry.type = "console" ∨ entry.type = "file") :
    smAddStream entry st =
      (.ok (),
       { st with
           streams := mapSet st.streams entry.name
             { handle := st.nextHandle, level := entry.level,
               autoEnd := entry.autoEnd.getD true }
           activeStreams := setAdd st.activeStreams entry.name
           nextHandle := st.nextHandle + 1 }) := by
  rcases h with h | h <;> simp [smAddStream, smCreateStream, h]

/-- C6 witness: the amended statement evaluated on the duplicate `x`
descriptor. -/
theorem c6_addStream_overwrites_witness :
    smAddStream c6DuplicateEntry c6Registry =
      (.ok (),
       { c6Registry with
           streams := mapSet c6Registry.streams c6DuplicateEntry.name
             { handle := c6Registry.nextHandle,
               level := c6DuplicateEntry.level,
               autoEnd := c6DuplicateEntry.autoEnd.getD true }
           activeStreams := setAdd c6Registry.activeStreams
             c6DuplicateEntry.name
           nextHandle := c6Registry.nextHandle + 1 }) :=
  c6_addStream_overwrites c6DuplicateEntry c6Registry (Or.inl (by decide))

/-- C7 counterexample: the claim states that `trackRequestStart` on a fresh
requestId creates a context immediately marked `Active`.  On a fresh
tracker the created context has status `Created`, not `Active`. -/
theorem c7_fresh_context_not_active :
    (mapGet c7AfterStart.requestContexts "r1").map (fun c => c.status)
        = some RequestStatus.created
    ∧ RequestStatus.created ≠ RequestStatus.active := by
  decide

/-- C7 amended: for a requestId with no existing context,
`trackRequestStart` creates a context with the given method and url whose
status is `Created` (not `Active`); for a requestId whose context exists,
it updates the context in place to status `Active` with the new method and
url (idempotent re-entry for the same id). -/
theorem c7_trackRequestStart_amended (tr : RequestTrackerState)
    (rid m u : String) (hdrs : Option (List (String × String))) (now : Int) :
    (mapGet tr.requestContexts rid = none →
      ∃ c, mapGet (rctTrackRequestStart rid m u hdrs now tr).requestContexts
            rid = some c
        ∧ c.status = .created ∧ c.method = m ∧ c.url = u)
    ∧ ∀ c0, mapGet tr.requestContexts rid = some c0 →
      ∃ c, mapGet (rctTrackRequestStart rid m u hdrs now tr).requestContexts
            rid = some c
        ∧ c.status = .active ∧ c.method = m ∧ c.url = u := by
  constructor
  · intro h
    unfold rctTrackRequestStart rctGetContext
    rw [h]
    exact ⟨(rctCreateContext rid
        { method := some m, url := some u, headers := hdrs } now tr).1,
      mapGet_mapSet tr.requestContexts rid _, rfl, rfl, rfl⟩
  · intro c0 h
    unfold rctTrackRequestStart rctGetContext
    rw [h]
    unfold rctUpdateContext
    rw [h]
    exact ⟨applyUpdate c0
        { status := some .active, method := some m, url := some u,
          headers := some (hdrs.getD c0.headers) },
      mapGet_mapSet tr.requestContexts rid _, rfl, rfl, rfl⟩

/-- C7 witness: both branches of the amended statement on concrete
trackers. -/
theorem c7_trackRequestStart_amended_witness :
    (∃ c, mapGet (rctTrackRequestStart "r1" "GET" "/a" none 5
          (rctNew 0)).requestContexts "r1" = some c
      ∧ c.status = .created ∧ c.method = "GET" ∧ c.url = "/a")
    ∧ ∃ c, mapGet (rctTrackRequestStart "r1" "GET" "/a" none 6
          c7AfterStart).requestContexts "r1" = some c
      ∧ c.status = .active ∧ c.method = "GET" ∧ c.url = "/a" :=
  ⟨(c7_trackRequestStart_amended (rctNew 0) "r1" "GET" "/a" none 5).1
     (by decide),
   (c7_trackRequestStart_amended c7AfterStart "r1" "GET" "/a" none 6).2
     c7StoredContext (by decide)⟩

/-- C8: recording 1001 errors leaves exactly the 1000 most recent entries
in the history (the oldest entry is evicted first) while the name-to-count
map sums to 1001 — counts are never evicted. -/
theorem c8_error_cap (events : List ErrEvent)
    (h : events.length = 1001) :
    (elApply events elNew).errorHistory
        = (events.map ErrEvent.toHistEntry).drop 1
    ∧ (elApply events elNew).errorHistory.length = 1000
    ∧ countsTotal (elApply events elNew).errorCounts = 1001 := by
  have hh := errorHistory_elApply events
  have hc := countsTotal_elApply events elNew
  have h1 : events.length - maxHistorySize = 1 := by
    rw [h]; decide
  refine ⟨by rw [hh, h1], ?_, ?_⟩
  · rw [hh, h1, List.length_drop, List.length_map, h]
  · rw [hc, h]
    decide

/-- C8 witness: 1001 identical error events. -/
theorem c8_error_cap_witness :
    (elApply (List.replicate 1001 sampleErrEvent) elNew).errorHistory
        = ((List.replicate 1001 sampleErrEvent).map
            ErrEvent.toHistEntry).drop 1
    ∧ (elApply (List.replicate 1001 sampleErrEvent)
        elNew).errorHistory.length = 1000
    ∧ countsTotal (elApply (List.replicate 1001 sampleErrEvent)
        elNew).errorCounts = 1001 :=
  c8_error_cap (List.replicate 1001 sampleErrEvent)
    (List.length_replicate 1001 sampleErrEvent)

/-- C9: after more than 1000 `logError` calls,
`getErrorStatistics().totalErrors` is exactly 1000 — it reports the length
of the capped history, not the lifetime number of recorded errors. -/
theorem c9_totalErrors_is_capped_history_length (events : List ErrEvent)
    (h : 1000 < events.length) :
    (getErrorStatistics (elApply events elNew)).totalErrors = 1000 := by
  have hh := errorHistory_elApply events
  show (elApply events elNew).errorHistory.length = 1000
  rw [hh, List.length_drop, List.length_map]
  have hm : maxHistorySize = 1000 := rfl
  omega

/-- C9 witness: 1002 error events. -/
theorem c9_totalErrors_is_capped_history_length_witness :
    (getErrorStatistics (elApply (List.replicate 1002 sampleErrEvent)
        elNew)).totalErrors = 1000 :=
  c9_totalErrors_is_capped_history_length
    (List.replicate 1002 sampleErrEvent)
    (by rw [List.length_replicate]; omega)

/-- C10: when no context exists for a requestId, both `trackRequestEnd` and
`trackRequestError` leave the tracker state — contexts and all statistics —
entirely unchanged. -/
theorem c10_end_error_missing_context_noop (tr : RequestTrackerState)
    (rid : String) (code dur : Int) (rs : Option Int) (err : ErrorDetail)
    (sc : Option Int) (now : Int)
    (h : mapGet tr.requestContexts rid = none) :
    rctTrackRequestEnd rid code dur rs now tr = tr
    ∧ rctTrackRequestError rid err sc now tr = tr := by
  constructor
  · simp [rctTrackRequestEnd, rctUpdateContext, h]
  · simp [rctTrackRequestError, rctUpdateContext, rctGetContext, h]

/-- C10 witness: the unknown id `zz` against the tracker that owns only
`r1`. -/
theorem c10_end_error_missing_context_noop_witness :
    rctTrackRequestEnd "zz" 200 100 none 7 c7AfterStart = c7AfterStart
    ∧ rctTrackRequestError "zz" ⟨"E", "m"⟩ none 7 c7AfterStart
        = c7AfterStart :=
  c10_end_error_missing_context_noop c7AfterStart "zz" 200 100 none
    ⟨"E", "m"⟩ none 7 (by decide)

end CCR
